import Mathlib

/-! Shallow embedding of `src/papila_classes.py` (PAPILA glaucoma patient registry).
Python floats that only undergo order comparisons against integer constants are
modelled as rationals; `Optional[T]` becomes `Option T`; the mutable methods are
modelled as pure functions returning the updated object, and methods that can
raise return the post-state paired with an optional raised error message. -/

inductive Gender
  | MALE
  | FEMALE
deriving DecidableEq

inductive DiagnosisStatus
  | HEALTHY
  | GLAUCOMA
  | SUSPECT
deriving DecidableEq

inductive Eye
  | RIGHT
  | LEFT
deriving DecidableEq

inductive CrystallineStatus
  | PHAKIC
  | PSEUDOPHAKIC
deriving DecidableEq

/-- `RefractiveError.__init__` (source lines 27-31): sphere required, cylinder and
axis optional. -/
structure RefractiveError where
  sphere : ℚ
  cylinder : Option ℚ := none
  axis : Option ℚ := none
deriving DecidableEq

/-- `EyeData.__init__` (source lines 39-62): all clinical fields except `eye_type`
and `diagnosis` default to absent; `fundus_image` always starts absent. -/
structure EyeData where
  eye_type : Eye
  diagnosis : DiagnosisStatus
  refractive_error : Option RefractiveError := none
  crystalline_status : Option CrystallineStatus := none
  pneumatic_iop : Option ℚ := none
  perkins_iop : Option ℚ := none
  pachymetry : Option ℚ := none
  axial_length : Option ℚ := none
  mean_defect : Option ℚ := none
  fundus_image : Option String := none
deriving DecidableEq

/-- `EyeData.add_fundus_image` (source lines 64-68). The filesystem existence
check `os.path.exists` is an external capability, passed in as `pathExists`.
Returns the post-state of the object together with the raised error message,
if any: on a missing path the Python code raises `FileNotFoundError` without
assigning `self.fundus_image`, so the post-state is the receiver unchanged. -/
def EyeData.add_fundus_image (pathExists : String → Bool) (e : EyeData)
    (image_path : String) : EyeData × Option String :=
  if pathExists image_path then
    ({ e with fundus_image := some image_path }, none)
  else
    (e, some ("La imagen " ++ image_path ++ " no existe"))

/-- `EyeData.get_glaucoma_severity` (source lines 70-81): `None` when
`mean_defect` is unset or the diagnosis is not GLAUCOMA, otherwise the chained
comparisons `-6 <= md < -3`, `-12 <= md < -6`, `md < -12`, else branch. -/
def EyeData.get_glaucoma_severity (e : EyeData) : Option String :=
  match e.mean_defect, e.diagnosis with
  | some md, DiagnosisStatus.GLAUCOMA =>
    if -6 ≤ md ∧ md < -3 then some "Glaucoma Leve"
    else if -12 ≤ md ∧ md < -6 then some "Glaucoma Moderado"
    else if md < -12 then some "Glaucoma Severo"
    else some "No clasificable"
  | _, _ => none

/-- `Patient.__init__` (source lines 84-97): the five constructor arguments are
stored directly on the instance; in particular the `right_eye` and `left_eye`
arguments are stored without any check of their `eye_type`. -/
structure Patient where
  patient_id : String
  age : ℕ
  gender : Gender
  right_eye : Option EyeData := none
  left_eye : Option EyeData := none
deriving DecidableEq

/-- `Patient.set_eye_data` (source lines 99-105): routes the given EyeData to the
slot selected by its own `eye_type`. The Python `else: raise ValueError` branch
is unreachable because `Eye` is a closed two-value enumeration, so the match
here is total. -/
def Patient.set_eye_data (p : Patient) (eye_data : EyeData) : Patient :=
  match eye_data.eye_type with
  | Eye.RIGHT => { p with right_eye := some eye_data }
  | Eye.LEFT => { p with left_eye := some eye_data }

/-- Python truthiness test `oe and oe.diagnosis == d` on an `Optional[EyeData]`:
true exactly when the eye is recorded and carries diagnosis `d` (an `EyeData`
instance is always truthy, so `not oe` means `oe is None`). -/
def eyeDiagIs (oe : Option EyeData) (d : DiagnosisStatus) : Bool :=
  match oe with
  | some e => e.diagnosis = d
  | none => false

/-- `Patient.get_patient_diagnosis` (source lines 107-119). -/
def Patient.get_patient_diagnosis (p : Patient) : String :=
  if p.right_eye = none ∧ p.left_eye = none then "Sin datos"
  else if eyeDiagIs p.right_eye DiagnosisStatus.GLAUCOMA
          || eyeDiagIs p.left_eye DiagnosisStatus.GLAUCOMA then "Glaucoma"
  else if eyeDiagIs p.right_eye DiagnosisStatus.SUSPECT
          || eyeDiagIs p.left_eye DiagnosisStatus.SUSPECT then "Sospechoso"
  else "Sano"

/-- The eye-slot invariant of the spec (§3): a present right slot holds a
RIGHT-typed EyeData and a present left slot holds a LEFT-typed one. -/
def eyeInvariant (p : Patient) : Prop :=
  (∀ e : EyeData, p.right_eye = some e → e.eye_type = Eye.RIGHT) ∧
  (∀ e : EyeData, p.left_eye = some e → e.eye_type = Eye.LEFT)

/-- A GLAUCOMA-diagnosed right eye with a given mean defect, used as concrete
test data. -/
def glaucomaEye (md : ℚ) : EyeData :=
  { eye_type := Eye.RIGHT, diagnosis := DiagnosisStatus.GLAUCOMA,
    mean_defect := some md }

/-- The right eye of the demonstration block (source lines 222-232). -/
def sampleRightGlaucoma : EyeData :=
  { eye_type := Eye.RIGHT, diagnosis := DiagnosisStatus.GLAUCOMA,
    refractive_error := some { sphere := -3/2, cylinder := some (-3/4), axis := some 180 },
    crystalline_status := some CrystallineStatus.PHAKIC,
    pneumatic_iop := some 25, perkins_iop := some 24, pachymetry := some 545,
    axial_length := some (49/2), mean_defect := some (-17/2) }

/-- The left eye of the demonstration block (source lines 234-244). -/
def sampleLeftSuspect : EyeData :=
  { eye_type := Eye.LEFT, diagnosis := DiagnosisStatus.SUSPECT,
    refractive_error := some { sphere := -5/4 },
    crystalline_status := some CrystallineStatus.PHAKIC,
    pneumatic_iop := some 22, perkins_iop := some 21, pachymetry := some 540,
    axial_length := some (243/10), mean_defect := some (-5/2) }

/-- The demonstration patient P001 (source lines 216-247) with both eyes set. -/
def samplePatient : Patient :=
  { patient_id := "P001", age := 65, gender := Gender.MALE,
    right_eye := some sampleRightGlaucoma, left_eye := some sampleLeftSuspect }

/-- A LEFT-typed EyeData, to be placed in the wrong slot at construction. -/
def mistypedEye : EyeData :=
  { eye_type := Eye.LEFT, diagnosis := DiagnosisStatus.HEALTHY }

/-- A Patient built by the constructor with a LEFT-typed EyeData passed as the
`right_eye` argument; the constructor stores it unchecked. -/
def mismatchedPatient : Patient :=
  { patient_id := "P_bad", age := 30, gender := Gender.FEMALE,
    right_eye := some mistypedEye, left_eye := none }

lemma severity_eq (e : EyeData) (m : ℚ) (hm : e.mean_defect = some m)
    (hd : e.diagnosis = DiagnosisStatus.GLAUCOMA) :
    e.get_glaucoma_severity =
      (if -6 ≤ m ∧ m < -3 then some "Glaucoma Leve"
       else if -12 ≤ m ∧ m < -6 then some "Glaucoma Moderado"
       else if m < -12 then some "Glaucoma Severo"
       else some "No clasificable") := by
  unfold EyeData.get_glaucoma_severity
  rw [hm, hd]

lemma set_eye_data_right (p : Patient) (ed : EyeData) (h : ed.eye_type = Eye.RIGHT) :
    p.set_eye_data ed = { p with right_eye := some ed } := by
  unfold Patient.set_eye_data
  rw [h]

lemma set_eye_data_left (p : Patient) (ed : EyeData) (h : ed.eye_type = Eye.LEFT) :
    p.set_eye_data ed = { p with left_eye := some ed } := by
  unfold Patient.set_eye_data
  rw [h]

/-- Claim C1: for every EyeData with diagnosis GLAUCOMA and a set mean_defect m,
get_glaucoma_severity returns exactly one of the four severity labels, assigned
by half-open bands partitioning the rationals: Mild ("Glaucoma Leve") iff
m ∈ [-6, -3), Moderate ("Glaucoma Moderado") iff m ∈ [-12, -6), Severe
("Glaucoma Severo") iff m < -12, and Unclassifiable ("No clasificable") iff
m ≥ -3 — the four iffs make the bands gapless and non-overlapping. -/
theorem C1_severity_partition (e : EyeData) (m : ℚ)
    (hd : e.diagnosis = DiagnosisStatus.GLAUCOMA) (hm : e.mean_defect = some m) :
    (e.get_glaucoma_severity = some "Glaucoma Leve" ↔ (-6 ≤ m ∧ m < -3)) ∧
    (e.get_glaucoma_severity = some "Glaucoma Moderado" ↔ (-12 ≤ m ∧ m < -6)) ∧
    (e.get_glaucoma_severity = some "Glaucoma Severo" ↔ m < -12) ∧
    (e.get_glaucoma_severity = some "No clasificable" ↔ -3 ≤ m) := by
  rw [severity_eq e m hm hd]
  rcases le_or_lt (-3 : ℚ) m with hA | hA
  · have h1 : ¬(-6 ≤ m ∧ m < -3) := fun h => by linarith [h.2]
    have h2 : ¬(-12 ≤ m ∧ m < -6) := fun h => by linarith [h.2]
    have h3 : ¬ m < -12 := by linarith
    rw [if_neg h1, if_neg h2, if_neg h3]
    exact ⟨iff_of_false (by decide) h1, iff_of_false (by decide) h2,
           iff_of_false (by decide) h3, iff_of_true rfl hA⟩
  · rcases le_or_lt (-6 : ℚ) m with hB | hB
    · have h1 : -6 ≤ m ∧ m < -3 := ⟨hB, hA⟩
      rw [if_pos h1]
      exact ⟨iff_of_true rfl h1,
             iff_of_false (by decide) (fun h => by linarith [h.2]),
             iff_of_false (by decide) (by intro h; linarith),
             iff_of_false (by decide) (by intro h; linarith)⟩
    · rcases le_or_lt (-12 : ℚ) m with hC | hC
      · have h1 : ¬(-6 ≤ m ∧ m < -3) := fun h => by linarith [h.1]
        have h2 : -12 ≤ m ∧ m < -6 := ⟨hC, hB⟩
        rw [if_neg h1, if_pos h2]
        exact ⟨iff_of_false (by decide) h1, iff_of_true rfl h2,
               iff_of_false (by decide) (by intro h; linarith),
               iff_of_false (by decide) (by intro h; linarith)⟩
      · have h1 : ¬(-6 ≤ m ∧ m < -3) := fun h => by linarith [h.1]
        have h2 : ¬(-12 ≤ m ∧ m < -6) := fun h => by linarith [h.1]
        rw [if_neg h1, if_neg h2, if_pos hC]
        exact ⟨iff_of_false (by decide) h1, iff_of_false (by decide) h2,
               iff_of_true rfl hC, iff_of_false (by decide) (by intro h; linarith)⟩

/-- Concrete instance of C1: a GLAUCOMA eye with mean defect -7 is classified
Moderate, obtained from the partition theorem at that input. -/
theorem C1_severity_partition_witness :
    (glaucomaEye (-7)).get_glaucoma_severity = some "Glaucoma Moderado" :=
  ((C1_severity_partition (glaucomaEye (-7)) (-7) rfl rfl).2.1).mpr (by norm_num)

/-- Claim C4: get_patient_diagnosis returns "Sin datos" ("No Data") when neither
eye is recorded; otherwise "Glaucoma" if either recorded eye has diagnosis
GLAUCOMA; otherwise "Sospechoso" ("Suspect") if either recorded eye has
diagnosis SUSPECT; otherwise "Sano" ("Healthy") — precedence
GLAUCOMA > SUSPECT > HEALTHY. -/
theorem C4_patient_diagnosis (p : Patient) :
    (p.right_eye = none → p.left_eye = none →
       p.get_patient_diagnosis = "Sin datos") ∧
    (¬(p.right_eye = none ∧ p.left_eye = none) →
      (((eyeDiagIs p.right_eye DiagnosisStatus.GLAUCOMA
          || eyeDiagIs p.left_eye DiagnosisStatus.GLAUCOMA) = true →
          p.get_patient_diagnosis = "Glaucoma") ∧
       ((eyeDiagIs p.right_eye DiagnosisStatus.GLAUCOMA
          || eyeDiagIs p.left_eye DiagnosisStatus.GLAUCOMA) = false →
        (eyeDiagIs p.right_eye DiagnosisStatus.SUSPECT
          || eyeDiagIs p.left_eye DiagnosisStatus.SUSPECT) = true →
          p.get_patient_diagnosis = "Sospechoso") ∧
       ((eyeDiagIs p.right_eye DiagnosisStatus.GLAUCOMA
          || eyeDiagIs p.left_eye DiagnosisStatus.GLAUCOMA) = false →
        (eyeDiagIs p.right_eye DiagnosisStatus.SUSPECT
          || eyeDiagIs p.left_eye DiagnosisStatus.SUSPECT) = false →
          p.get_patient_diagnosis = "Sano"))) := by
  constructor
  · intro hr hl
    simp [Patient.get_patient_diagnosis, hr, hl]
  · intro hne
    refine ⟨?_, ?_, ?_⟩
    · intro hg
      simp [Patient.get_patient_diagnosis, hne, hg]
    · intro hg hs
      simp [Patient.get_patient_diagnosis, hne, hg, hs]
    · intro hg hs
      simp [Patient.get_patient_diagnosis, hne, hg, hs]

/-- Concrete instance of C4: the demonstration patient with one GLAUCOMA and one
SUSPECT eye is "Glaucoma", obtained from the precedence theorem. -/
theorem C4_patient_diagnosis_witness :
    samplePatient.get_patient_diagnosis = "Glaucoma" :=
  ((C4_patient_diagnosis samplePatient).2 (by decide)).1 (by decide)

/-- Claim C5 counterexample: the Patient constructor stores its initial eye
arguments without checking their eye_type, so a LEFT-typed EyeData passed as
the right_eye argument ends up in the right slot and the invariant fails. -/
theorem C5_construction_violates_invariant : ¬ eyeInvariant mismatchedPatient := by
  intro h
  have hx := h.1 mistypedEye rfl
  exact absurd hx (by decide)

/-- Claim C5 (amended): set_eye_data preserves the eye-slot invariant because it
routes by the EyeData's own eye_type, and construction establishes the
invariant whenever the initial eye arguments are correctly typed or absent
(the constructor itself performs no validation). -/
theorem C5_invariant_preserved :
    (∀ (p : Patient) (ed : EyeData),
       eyeInvariant p → eyeInvariant (p.set_eye_data ed)) ∧
    (∀ (pid : String) (a : ℕ) (g : Gender) (r0 l0 : Option EyeData),
       (∀ e : EyeData, r0 = some e → e.eye_type = Eye.RIGHT) →
       (∀ e : EyeData, l0 = some e → e.eye_type = Eye.LEFT) →
       eyeInvariant (Patient.mk pid a g r0 l0)) := by
  constructor
  · rintro p ed ⟨hr, hl⟩
    cases het : ed.eye_type with
    | RIGHT =>
      rw [set_eye_data_right p ed het]
      refine ⟨fun e he => ?_, fun e he => hl e he⟩
      have : ed = e := Option.some.inj he
      rw [← this]
      exact het
    | LEFT =>
      rw [set_eye_data_left p ed het]
      refine ⟨fun e he => hr e he, fun e he => ?_⟩
      have : ed = e := Option.some.inj he
      rw [← this]
      exact het
  · intro pid a g r0 l0 hR hL
    exact ⟨fun e he => hR e he, fun e he => hL e he⟩

/-- Concrete instance of the amended C5: attaching the demonstration eyes via
set_eye_data to a freshly constructed eyeless patient yields a patient
satisfying the invariant. -/
theorem C5_invariant_preserved_witness :
    eyeInvariant ((Patient.mk "P001" 65 Gender.MALE none none).set_eye_data
      sampleRightGlaucoma) :=
  C5_invariant_preserved.1 _ sampleRightGlaucoma
    (C5_invariant_preserved.2 "P001" 65 Gender.MALE none none
      (fun _ h => nomatch h) (fun _ h => nomatch h))

/-- Claim C6 counterexample: at mean_defect exactly -6 the code returns
"Glaucoma Leve" (Mild), not "Glaucoma Moderado" as the claim states, because
the first chained comparison `-6 <= -6 < -3` is true; and at -6.0000001 it
returns "Glaucoma Moderado", not a Mild-side result. -/
theorem C6_boundary_counterexample :
    ¬ ((glaucomaEye (-6)).get_glaucoma_severity = some "Glaucoma Moderado") ∧
    ¬ ((glaucomaEye ((-60000001 : ℚ) / 10000000)).get_glaucoma_severity
        = some "Glaucoma Leve") := by
  constructor
  · rw [severity_eq (glaucomaEye (-6)) (-6) rfl rfl,
        if_pos (show (-6 : ℚ) ≤ -6 ∧ (-6 : ℚ) < -3 by norm_num)]
    decide
  · rw [severity_eq (glaucomaEye ((-60000001 : ℚ) / 10000000))
          ((-60000001 : ℚ) / 10000000) rfl rfl,
        if_neg (show ¬((-6 : ℚ) ≤ (-60000001 : ℚ) / 10000000 ∧
          (-60000001 : ℚ) / 10000000 < -3) by norm_num),
        if_pos (show (-12 : ℚ) ≤ (-60000001 : ℚ) / 10000000 ∧
          (-60000001 : ℚ) / 10000000 < -6 by norm_num)]
    decide

/-- Claim C6 (amended): a GLAUCOMA eye with mean_defect exactly -6.0 is
classified "Glaucoma Leve" (Mild), since the Mild band [-6, -3) is inclusive at
its lower end, and mean_defect -6.0000001 is classified "Glaucoma Moderado"
(Moderate), since it falls in [-12, -6). -/
theorem C6_boundary_amended :
    (glaucomaEye (-6)).get_glaucoma_severity = some "Glaucoma Leve" ∧
    (glaucomaEye ((-60000001 : ℚ) / 10000000)).get_glaucoma_severity
      = some "Glaucoma Moderado" := by
  constructor
  · rw [severity_eq (glaucomaEye (-6)) (-6) rfl rfl,
        if_pos (show (-6 : ℚ) ≤ -6 ∧ (-6 : ℚ) < -3 by norm_num)]
  · rw [severity_eq (glaucomaEye ((-60000001 : ℚ) / 10000000))
          ((-60000001 : ℚ) / 10000000) rfl rfl,
        if_neg (show ¬((-6 : ℚ) ≤ (-60000001 : ℚ) / 10000000 ∧
          (-60000001 : ℚ) / 10000000 < -3) by norm_num),
        if_pos (show (-12 : ℚ) ≤ (-60000001 : ℚ) / 10000000 ∧
          (-60000001 : ℚ) / 10000000 < -6 by norm_num)]

/-- Values taken by the `age_stats` min/max slots in `get_statistics`: either a
finite age, or the `float('inf')` / `float('-inf')` sentinels they are
initialized to (source lines 182-183). -/
inductive AgeBound
  | fin (n : ℕ)
  | posInf
  | negInf
deriving DecidableEq

/-- Python `min(current, age)` where `current` starts at `float('inf')` and
`age` is a finite integer. -/
def minAB : AgeBound → ℕ → AgeBound
  | AgeBound.posInf, a => AgeBound.fin a
  | AgeBound.negInf, _ => AgeBound.negInf
  | AgeBound.fin x, a => AgeBound.fin (min x a)

/-- Python `max(current, age)` where `current` starts at `float('-inf')` and
`age` is a finite integer. -/
def maxAB : AgeBound → ℕ → AgeBound
  | AgeBound.negInf, a => AgeBound.fin a
  | AgeBound.posInf, _ => AgeBound.posInf
  | AgeBound.fin x, a => AgeBound.fin (max x a)

/-- Statistics record returned by `PapilaDataset.get_statistics` (source lines
168-186): the nested Python dict flattened into named fields. -/
structure Stats where
  total_patients : ℕ
  male : ℕ
  female : ℕ
  healthy : ℕ
  glaucoma : ℕ
  suspect : ℕ
  mixed : ℕ
  age_min : AgeBound
  age_max : AgeBound
  age_avg : ℚ
deriving DecidableEq

/-- `kwargs` entries accepted by `filter_patients` (source lines 151-166): the
four recognized keys with their values, plus `other` for any unrecognized key
(whose value the code never inspects). -/
inductive FilterArg
  | age_min (v : ℕ)
  | age_max (v : ℕ)
  | gender (v : Gender)
  | diagnosis (v : DiagnosisStatus)
  | other (key : String)
deriving DecidableEq

/-- One iteration of the `for key, value in kwargs.items()` loop of
`filter_patients` (source lines 154-164): list comprehension on a recognized
key, no-op on an unrecognized one. -/
def applyFilter (arg : FilterArg) (l : List Patient) : List Patient :=
  match arg with
  | FilterArg.age_min v => l.filter (fun p => decide (v ≤ p.age))
  | FilterArg.age_max v => l.filter (fun p => decide (p.age ≤ v))
  | FilterArg.gender v => l.filter (fun p => decide (p.gender = v))
  | FilterArg.diagnosis v =>
      l.filter (fun p => eyeDiagIs p.right_eye v || eyeDiagIs p.left_eye v)
  | FilterArg.other _ => l

/-- Whether a single patient satisfies one filter predicate; an unrecognized
key constrains nothing. -/
def matchesArg (p : Patient) (arg : FilterArg) : Bool :=
  match arg with
  | FilterArg.age_min v => decide (v ≤ p.age)
  | FilterArg.age_max v => decide (p.age ≤ v)
  | FilterArg.gender v => decide (p.gender = v)
  | FilterArg.diagnosis v => eyeDiagIs p.right_eye v || eyeDiagIs p.left_eye v
  | FilterArg.other _ => true

/-- `PapilaDataset.__init__` plus its `patients` dict (source lines 122-125):
the insertion-ordered mapping is modelled as an association list. -/
structure PapilaDataset where
  patients : List (String × Patient) := []
  base_dir : Option String := none
deriving DecidableEq

/-- `PapilaDataset.filter_patients` (source lines 151-166): start from
`list(self.patients.values())` and fold the predicate loop over it. -/
def PapilaDataset.filter_patients (ds : PapilaDataset) (kwargs : List FilterArg) :
    List Patient :=
  kwargs.foldl (fun acc arg => applyFilter arg acc) (ds.patients.map Prod.snd)

/-- Python `p.gender == Gender.MALE` as a Bool predicate. -/
def isMale (p : Patient) : Bool :=
  match p.gender with
  | Gender.MALE => true
  | Gender.FEMALE => false

/-- Python `p.gender == Gender.FEMALE` as a Bool predicate. -/
def isFemale (p : Patient) : Bool :=
  match p.gender with
  | Gender.MALE => false
  | Gender.FEMALE => true

/-- True when neither eye of the patient is recorded. -/
def noEyes (p : Patient) : Bool :=
  match p.right_eye, p.left_eye with
  | none, none => true
  | _, _ => false

/-- The diagnosis-bucket block of the statistics loop body (source lines
194-205): `right_diagnosis`/`left_diagnosis` are `eye.diagnosis if eye else
None`, equal diagnoses bump the matching bucket (None matches none of the three
enum members, so a both-absent patient bumps nothing), and any mismatch bumps
`mixed`. -/
def bucketUpdate (s : Stats) (p : Patient) : Stats :=
  let right_diagnosis := p.right_eye.map EyeData.diagnosis
  let left_diagnosis := p.left_eye.map EyeData.diagnosis
  if right_diagnosis = left_diagnosis then
    if right_diagnosis = some DiagnosisStatus.HEALTHY then
      { s with healthy := s.healthy + 1 }
    else if right_diagnosis = some DiagnosisStatus.GLAUCOMA then
      { s with glaucoma := s.glaucoma + 1 }
    else if right_diagnosis = some DiagnosisStatus.SUSPECT then
      { s with suspect := s.suspect + 1 }
    else s
  else { s with mixed := s.mixed + 1 }

/-- One iteration of the statistics loop (source lines 189-205): accumulate the
age into `total_age` (second component), update the running min/max, and apply
the diagnosis-bucket block. -/
def statStep (acc : Stats × ℕ) (p : Patient) : Stats × ℕ :=
  let s := acc.1
  let s1 := { s with age_min := minAB s.age_min p.age,
                     age_max := maxAB s.age_max p.age }
  (bucketUpdate s1 p, acc.2 + p.age)

/-- Body of `PapilaDataset.get_statistics` over the extracted patient list
(source lines 168-210): the initial stats dict (with the counts computed by the
two generator-expression sums and the infinite min/max sentinels), the single
pass over the patients, and the final average assignment guarded by
`if self.patients:`. -/
def computeStats (ps : List Patient) : Stats :=
  let init : Stats :=
    { total_patients := ps.length,
      male := (ps.filter isMale).length,
      female := (ps.filter isFemale).length,
      healthy := 0, glaucoma := 0, suspect := 0, mixed := 0,
      age_min := AgeBound.posInf, age_max := AgeBound.negInf, age_avg := 0 }
  let r := ps.foldl statStep (init, 0)
  if ps = [] then r.1
  else { r.1 with age_avg := (r.2 : ℚ) / (ps.length : ℚ) }

/-- `PapilaDataset.get_statistics` (source lines 168-210), aggregating over
`self.patients.values()`. -/
def PapilaDataset.get_statistics (ds : PapilaDataset) : Stats :=
  computeStats (ds.patients.map Prod.snd)

/-- State-passing form of `filter_patients`: the method body (source lines
151-166) contains no assignment to `self`, so the post-state is the receiver
unchanged, and the result is the freshly built filtered list. -/
def PapilaDataset.filter_patients_run (ds : PapilaDataset)
    (kwargs : List FilterArg) : PapilaDataset × List Patient :=
  (ds, ds.filter_patients kwargs)

/-- State-passing form of `get_statistics`: the method body (source lines
168-210) only writes into its local `stats` dict and `total_age`, never into
`self`, so the post-state is the receiver unchanged. -/
def PapilaDataset.get_statistics_run (ds : PapilaDataset) :
    PapilaDataset × Stats :=
  (ds, ds.get_statistics)

/-- The dataset constructed by the demonstration block: empty registry plus the
single patient P001. -/
def sampleDataset : PapilaDataset :=
  { patients := [("P001", samplePatient)], base_dir := none }

/-- The dataset as freshly constructed: no patients at all. -/
def emptyDataset : PapilaDataset :=
  { patients := [], base_dir := none }

/-- A stats record with concrete contents, used as an arbitrary pre-state for
the bucket-step witness. -/
def sampleStats : Stats :=
  { total_patients := 1, male := 1, female := 0,
    healthy := 0, glaucoma := 0, suspect := 0, mixed := 0,
    age_min := AgeBound.posInf, age_max := AgeBound.negInf, age_avg := 0 }

/-- A patient with only a right eye recorded. -/
def oneEyedPatient : Patient :=
  { patient_id := "P_one", age := 40, gender := Gender.MALE,
    right_eye := some sampleRightGlaucoma, left_eye := none }

lemma mem_applyFilter (a : FilterArg) (l : List Patient) (p : Patient) :
    p ∈ applyFilter a l ↔ p ∈ l ∧ matchesArg p a = true := by
  cases a <;> simp [applyFilter, matchesArg, List.mem_filter]

lemma mem_foldl_applyFilter (kwargs : List FilterArg) (l : List Patient)
    (p : Patient) :
    p ∈ kwargs.foldl (fun acc arg => applyFilter arg acc) l ↔
      p ∈ l ∧ ∀ a ∈ kwargs, matchesArg p a = true := by
  induction kwargs generalizing l with
  | nil => simp
  | cons a as ih =>
    rw [List.foldl_cons, ih (applyFilter a l), mem_applyFilter]
    constructor
    · rintro ⟨⟨hp, ha⟩, has⟩
      refine ⟨hp, fun b hb => ?_⟩
      rcases List.mem_cons.mp hb with rfl | hb
      · exact ha
      · exact has b hb
    · rintro ⟨hp, hall⟩
      exact ⟨⟨hp, hall a (List.mem_cons_self a as)⟩,
             fun b hb => hall b (List.mem_cons_of_mem a hb)⟩

lemma applyFilter_sublist (a : FilterArg) (l : List Patient) :
    List.Sublist (applyFilter a l) l := by
  cases a
  · exact List.filter_sublist _
  · exact List.filter_sublist _
  · exact List.filter_sublist _
  · exact List.filter_sublist _
  · exact List.Sublist.refl l

lemma foldl_applyFilter_sublist (kwargs : List FilterArg) (l : List Patient) :
    List.Sublist (kwargs.foldl (fun acc arg => applyFilter arg acc) l) l := by
  induction kwargs generalizing l with
  | nil => exact List.Sublist.refl l
  | cons a as ih =>
    rw [List.foldl_cons]
    exact (ih (applyFilter a l)).trans (applyFilter_sublist a l)

lemma bucketUpdate_sum (s : Stats) (p : Patient) :
    (bucketUpdate s p).healthy + (bucketUpdate s p).glaucoma +
      (bucketUpdate s p).suspect + (bucketUpdate s p).mixed =
    s.healthy + s.glaucoma + s.suspect + s.mixed +
      (if noEyes p then 0 else 1) := by
  rcases hr : p.right_eye with _ | er <;> rcases hl : p.left_eye with _ | el
  · simp [bucketUpdate, noEyes, hr, hl]
  · simp [bucketUpdate, noEyes, hr, hl]
    omega
  · simp [bucketUpdate, noEyes, hr, hl]
    omega
  · cases hde : er.diagnosis <;> cases hdl : el.diagnosis <;>
      simp [bucketUpdate, noEyes, hr, hl, hde, hdl] <;> omega

lemma bucketUpdate_frame (s : Stats) (p : Patient) :
    (bucketUpdate s p).total_patients = s.total_patients ∧
    (bucketUpdate s p).male = s.male ∧
    (bucketUpdate s p).female = s.female := by
  simp only [bucketUpdate]
  split_ifs <;> exact ⟨rfl, rfl, rfl⟩

lemma statStep_buckets (acc : Stats × ℕ) (p : Patient) :
    (statStep acc p).1.healthy + (statStep acc p).1.glaucoma +
      (statStep acc p).1.suspect + (statStep acc p).1.mixed =
    acc.1.healthy + acc.1.glaucoma + acc.1.suspect + acc.1.mixed +
      (if noEyes p then 0 else 1) := by
  have h := bucketUpdate_sum
    { acc.1 with age_min := minAB acc.1.age_min p.age,
                 age_max := maxAB acc.1.age_max p.age } p
  simpa [statStep] using h

lemma statStep_frame (acc : Stats × ℕ) (p : Patient) :
    (statStep acc p).1.total_patients = acc.1.total_patients ∧
    (statStep acc p).1.male = acc.1.male ∧
    (statStep acc p).1.female = acc.1.female := by
  have h := bucketUpdate_frame
    { acc.1 with age_min := minAB acc.1.age_min p.age,
                 age_max := maxAB acc.1.age_max p.age } p
  simpa [statStep] using h

lemma foldl_statStep_frame (ps : List Patient) (acc : Stats × ℕ) :
    (ps.foldl statStep acc).1.total_patients = acc.1.total_patients ∧
    (ps.foldl statStep acc).1.male = acc.1.male ∧
    (ps.foldl statStep acc).1.female = acc.1.female := by
  induction ps generalizing acc with
  | nil => exact ⟨rfl, rfl, rfl⟩
  | cons p ps ih =>
    rw [List.foldl_cons]
    have h1 := statStep_frame acc p
    have h2 := ih (statStep acc p)
    exact ⟨h2.1.trans h1.1, h2.2.1.trans h1.2.1, h2.2.2.trans h1.2.2⟩

lemma foldl_statStep_sum (ps : List Patient) (acc : Stats × ℕ) :
    (ps.foldl statStep acc).1.healthy + (ps.foldl statStep acc).1.glaucoma +
      (ps.foldl statStep acc).1.suspect + (ps.foldl statStep acc).1.mixed +
      (ps.filter noEyes).length =
    acc.1.healthy + acc.1.glaucoma + acc.1.suspect + acc.1.mixed + ps.length := by
  induction ps generalizing acc with
  | nil => simp
  | cons p ps ih =>
    rw [List.foldl_cons, List.filter_cons]
    have h1 := statStep_buckets acc p
    have h2 := ih (statStep acc p)
    cases hn : noEyes p <;> simp [hn] at h1 ⊢ <;> omega

lemma isMale_isFemale_split (ps : List Patient) :
    (ps.filter isMale).length + (ps.filter isFemale).length = ps.length := by
  induction ps with
  | nil => rfl
  | cons p ps ih =>
    rw [List.filter_cons, List.filter_cons]
    cases hg : p.gender <;> simp [isMale, isFemale, hg] <;> omega

lemma computeStats_counts (ps : List Patient) :
    (computeStats ps).total_patients = ps.length ∧
    (computeStats ps).male = (ps.filter isMale).length ∧
    (computeStats ps).female = (ps.filter isFemale).length ∧
    (computeStats ps).healthy + (computeStats ps).glaucoma +
      (computeStats ps).suspect + (computeStats ps).mixed +
      (ps.filter noEyes).length = ps.length := by
  simp only [computeStats]
  split_ifs with h
  · subst h
    simp
  · have hframe := foldl_statStep_frame ps
      ({ total_patients := ps.length,
         male := (ps.filter isMale).length,
         female := (ps.filter isFemale).length,
         healthy := 0, glaucoma := 0, suspect := 0, mixed := 0,
         age_min := AgeBound.posInf, age_max := AgeBound.negInf,
         age_avg := 0 }, 0)
    have hsum := foldl_statStep_sum ps
      ({ total_patients := ps.length,
         male := (ps.filter isMale).length,
         female := (ps.filter isFemale).length,
         healthy := 0, glaucoma := 0, suspect := 0, mixed := 0,
         age_min := AgeBound.posInf, age_max := AgeBound.negInf,
         age_avg := 0 }, 0)
    simp only at hframe hsum ⊢
    refine ⟨?_, ?_, ?_, ?_⟩
    · exact hframe.1
    · exact hframe.2.1
    · exact hframe.2.2
    · omega

/-- Claim C2 (evaluation at the failing input): on the empty dataset,
get_statistics returns total 0, gender counts 0/0, all four diagnosis buckets
0 and mean age 0 as the claim states, but the age min/max slots still hold the
positive/negative infinity sentinels they were initialized to — they are not
absent, contradicting the claim (the spec flags this sentinel leak of the
reference behavior in its §9 design note). -/
theorem C2_empty_statistics :
    emptyDataset.get_statistics.total_patients = 0 ∧
    emptyDataset.get_statistics.male = 0 ∧
    emptyDataset.get_statistics.female = 0 ∧
    emptyDataset.get_statistics.healthy = 0 ∧
    emptyDataset.get_statistics.glaucoma = 0 ∧
    emptyDataset.get_statistics.suspect = 0 ∧
    emptyDataset.get_statistics.mixed = 0 ∧
    emptyDataset.get_statistics.age_avg = 0 ∧
    emptyDataset.get_statistics.age_min = AgeBound.posInf ∧
    emptyDataset.get_statistics.age_max = AgeBound.negInf := by
  refine ⟨rfl, rfl, rfl, rfl, rfl, rfl, rfl, rfl, rfl, rfl⟩

/-- Claim C3: in the statistics loop body, a patient whose two eye diagnoses
compare equal increments exactly the healthy/glaucoma/suspect bucket matching
that shared diagnosis; any mismatch — including a patient with exactly one
recorded eye, whose missing side compares as an absent diagnosis — increments
exactly the mixed bucket; and a patient with both eyes absent increments no
bucket at all. -/
theorem C3_bucket_cases (s : Stats) (p : Patient) :
    (p.right_eye.map EyeData.diagnosis = p.left_eye.map EyeData.diagnosis →
       ((p.right_eye.map EyeData.diagnosis = some DiagnosisStatus.HEALTHY →
           bucketUpdate s p = { s with healthy := s.healthy + 1 }) ∧
        (p.right_eye.map EyeData.diagnosis = some DiagnosisStatus.GLAUCOMA →
           bucketUpdate s p = { s with glaucoma := s.glaucoma + 1 }) ∧
        (p.right_eye.map EyeData.diagnosis = some DiagnosisStatus.SUSPECT →
           bucketUpdate s p = { s with suspect := s.suspect + 1 }) ∧
        (p.right_eye = none → p.left_eye = none → bucketUpdate s p = s))) ∧
    (p.right_eye.map EyeData.diagnosis ≠ p.left_eye.map EyeData.diagnosis →
       bucketUpdate s p = { s with mixed := s.mixed + 1 }) ∧
    (p.right_eye = none → p.left_eye ≠ none →
       bucketUpdate s p = { s with mixed := s.mixed + 1 }) ∧
    (p.right_eye ≠ none → p.left_eye = none →
       bucketUpdate s p = { s with mixed := s.mixed + 1 }) := by
  refine ⟨?_, ?_, ?_, ?_⟩
  · intro heq
    refine ⟨?_, ?_, ?_, ?_⟩
    · intro h
      simp only [bucketUpdate]
      rw [if_pos heq, if_pos h]
    · intro h
      simp only [bucketUpdate]
      rw [if_pos heq, if_neg (by simp [h]), if_pos h]
    · intro h
      simp only [bucketUpdate]
      rw [if_pos heq, if_neg (by simp [h]), if_neg (by simp [h]), if_pos h]
    · intro hr hl
      simp [bucketUpdate, hr, hl]
  · intro hne
    simp only [bucketUpdate]
    rw [if_neg hne]
  · intro hr hl
    obtain ⟨el, hel⟩ := Option.ne_none_iff_exists'.mp hl
    simp [bucketUpdate, hr, hel]
  · intro hr hl
    obtain ⟨er, her⟩ := Option.ne_none_iff_exists'.mp hr
    simp [bucketUpdate, her, hl]

/-- Concrete instance of C3: a patient with only a right (GLAUCOMA) eye lands
in the mixed bucket, obtained from the case theorem. -/
theorem C3_bucket_cases_witness :
    bucketUpdate sampleStats oneEyedPatient =
      { sampleStats with mixed := sampleStats.mixed + 1 } :=
  (C3_bucket_cases sampleStats oneEyedPatient).2.2.2 (by decide) rfl

/-- Claim C7: filter_patients returns exactly the patients of the dataset
satisfying the conjunction of all recognized predicates (inclusive age bounds,
exact gender match, diagnosis on either recorded eye), unknown keys constrain
nothing, and with no predicates it returns all patients. -/
theorem C7_filter_conjunction (ds : PapilaDataset) :
    ds.filter_patients [] = ds.patients.map Prod.snd ∧
    ∀ (kwargs : List FilterArg) (p : Patient),
      (p ∈ ds.filter_patients kwargs ↔
        (p ∈ ds.patients.map Prod.snd ∧ ∀ a ∈ kwargs, matchesArg p a = true)) := by
  refine ⟨rfl, ?_⟩
  intro kwargs p
  exact mem_foldl_applyFilter kwargs (ds.patients.map Prod.snd) p

/-- Concrete instance of C7: the 65-year-old demonstration patient passes the
`age_min 60` filter on the demonstration dataset. -/
theorem C7_filter_conjunction_witness :
    samplePatient ∈ sampleDataset.filter_patients [FilterArg.age_min 60] :=
  ((C7_filter_conjunction sampleDataset).2 [FilterArg.age_min 60]
      samplePatient).mpr
    ⟨by simp [sampleDataset], by decide⟩

/-- Claim C8: add_fundus_image raises (returns an error) exactly when the path
does not exist; on failure the EyeData — in particular its stored fundus_image
— is left unchanged, and on success the only change is that fundus_image is set
to the given path. -/
theorem C8_fundus_attach (pathExists : String → Bool) (e : EyeData)
    (image_path : String) :
    ((EyeData.add_fundus_image pathExists e image_path).2 ≠ none ↔
        pathExists image_path = false) ∧
    (pathExists image_path = false →
        (EyeData.add_fundus_image pathExists e image_path).1 = e) ∧
    (pathExists image_path = true →
        (EyeData.add_fundus_image pathExists e image_path).1 =
          { e with fundus_image := some image_path }) := by
  cases hpe : pathExists image_path <;> simp [EyeData.add_fundus_image, hpe]

/-- Concrete instance of C8: attaching a nonexistent path leaves the eye record
unchanged, obtained from the attach theorem. -/
theorem C8_fundus_attach_witness :
    (EyeData.add_fundus_image (fun _ => false) mistypedEye "img.png").1 =
      mistypedEye :=
  (C8_fundus_attach (fun _ => false) mistypedEye "img.png").2.1 rfl

/-- Claim C9: the four diagnosis buckets of get_statistics plus the number of
patients with neither eye recorded sum to the total patient count, and the
male and female counts sum to the total patient count. -/
theorem C9_statistics_sums (ds : PapilaDataset) :
    ds.get_statistics.healthy + ds.get_statistics.glaucoma +
      ds.get_statistics.suspect + ds.get_statistics.mixed +
      ((ds.patients.map Prod.snd).filter noEyes).length =
      ds.get_statistics.total_patients ∧
    ds.get_statistics.male + ds.get_statistics.female =
      ds.get_statistics.total_patients := by
  have h := computeStats_counts (ds.patients.map Prod.snd)
  have hg : ds.get_statistics = computeStats (ds.patients.map Prod.snd) := rfl
  rw [hg]
  constructor
  · rw [h.1]
    exact h.2.2.2
  · rw [h.1, h.2.1, h.2.2.1]
    exact isMale_isFemale_split _

/-- Claim C10: filter_patients and get_statistics are read-only — in
state-passing form both return the dataset unchanged — and the list returned
by filter_patients is a freshly built sublist of the values of the patients
mapping, not the mapping itself. -/
theorem C10_queries_read_only (ds : PapilaDataset) (kwargs : List FilterArg) :
    (ds.filter_patients_run kwargs).1 = ds ∧
    ds.get_statistics_run.1 = ds ∧
    List.Sublist ((ds.filter_patients_run kwargs).2) (ds.patients.map Prod.snd) ∧
    (ds.filter_patients_run kwargs).2 = ds.filter_patients kwargs ∧
    ds.get_statistics_run.2 = ds.get_statistics :=
  ⟨rfl, rfl, foldl_applyFilter_sublist kwargs (ds.patients.map Prod.snd),
   rfl, rfl⟩
